import Mathlib

/-!
Shallow embedding of the Prophetic calendar-event reminder core
(calendar_parser.py, timeline_simulator.py, llm_module.py, web_scraper.py).

Python `datetime` values are modelled at microsecond granularity as a
calendar day number (proleptic ordinal, as in `date.toordinal`) together
with the time-of-day components that the code manipulates
(`replace(hour=0, minute=0, second=0, microsecond=0)`).  Python dict
fields that may be absent are `Option`s; `None` stored under a key and an
absent key are conflated, which is observationally equivalent for every
code path modelled here (`dict.get` is the only accessor used on the
optional fields).  Fallible code returns `Except`.  External collaborators
(the Gemini API, `random.random()`, `datetime.now()`, the `icalendar`
library) are passed in as explicit oracle arguments.  Logging calls are
side effects with no influence on results and are elided.
-/

/-- Model of a Python naive `datetime`: proleptic-ordinal day plus
time-of-day fields (seconds resolution split as in `datetime`). -/
structure Dt where
  day : Int
  hour : Nat
  minute : Nat
  second : Nat
  micro : Nat
deriving DecidableEq, Repr

/-- Total microseconds represented by a `Dt`; Python `datetime`
subtraction and comparison agree with this linearisation. -/
def Dt.totalMicro (d : Dt) : Int :=
  d.day * 86400000000 + (((d.hour * 60 + d.minute) * 60 + d.second) * 1000000 + d.micro)

/-- Model of `d.replace(hour=0, minute=0, second=0, microsecond=0)`. -/
def Dt.trunc (d : Dt) : Dt :=
  { day := d.day, hour := 0, minute := 0, second := 0, micro := 0 }

/-- Model of `d + timedelta(days=n)` (time of day unchanged). -/
def Dt.addDays (d : Dt) (n : Int) : Dt :=
  { d with day := d.day + n }

/-- Model of `(d1 - d2).days`: `timedelta` normalises with floor on days. -/
def Dt.daysDiff (d1 d2 : Dt) : Int :=
  (d1.totalMicro - d2.totalMicro).fdiv 86400000000

/-- Model of `d.weekday()`: day 1 of year 1 is a Monday (`weekday 0`). -/
def Dt.weekday (d : Dt) : Int :=
  (d.day - 1) % 7

/-- The Prop stating that a `Dt` has its time-of-day components zeroed. -/
def Dt.isTrunc (d : Dt) : Prop :=
  d.hour = 0 ∧ d.minute = 0 ∧ d.second = 0 ∧ d.micro = 0

instance (d : Dt) : Decidable d.isTrunc := by
  unfold Dt.isTrunc; infer_instance

/-- Abstract rendering of `strftime('%Y-%m-%d')`: a function of the
calendar day only (the textual content is not load-bearing anywhere). -/
def fmtYMD (d : Dt) : String :=
  toString d.day

/-- Abstract rendering of `strftime('%b %d')`: also a function of the day. -/
def fmtMD (d : Dt) : String :=
  toString d.day

/-- Decidable equality for `Except`, so that concrete runs of the
fallible operations can be checked by `decide`. -/
def exceptDecEq {ε α : Type} [DecidableEq ε] [DecidableEq α] :
    (a b : Except ε α) → Decidable (a = b)
  | .ok a, .ok b =>
    if h : a = b then .isTrue (by rw [h])
    else .isFalse (fun c => h (Except.ok.inj c))
  | .ok _, .error _ => .isFalse (fun c => Except.noConfusion c)
  | .error _, .ok _ => .isFalse (fun c => Except.noConfusion c)
  | .error e, .error f =>
    if h : e = f then .isTrue (by rw [h])
    else .isFalse (fun c => h (Except.error.inj c))

instance {ε α : Type} [DecidableEq ε] [DecidableEq α] :
    DecidableEq (Except ε α) :=
  exceptDecEq

/-- Model of `str.strip()`: drop whitespace from both ends (they agree
on ASCII whitespace, which covers every input considered here).
Implemented on the character list so that it evaluates by `decide`. -/
def pyStrip (s : String) : String :=
  ⟨((s.data.dropWhile Char.isWhitespace).reverse.dropWhile
      Char.isWhitespace).reverse⟩

/-- Model of the Python `in` test for a single character in a string. -/
def strContains (s : String) (c : Char) : Bool :=
  s.data.contains c

/-- Model of `str.lower()` (character-list implementation of
`String.toLower`). -/
def strToLower (s : String) : String :=
  ⟨s.data.map Char.toLower⟩

/-- Model of the slice `s[:n]` (character-list implementation of
`String.take`). -/
def strTake (s : String) (n : Nat) : String :=
  ⟨s.data.take n⟩

/-- Model of the slice `s[n:]` (character-list implementation of
`String.drop`). -/
def strDrop (s : String) (n : Nat) : String :=
  ⟨s.data.drop n⟩

/-- Model of `len(s)`: the number of characters. -/
def strLen (s : String) : Nat :=
  s.data.length

/-- Python truthiness of an optional string: `None` and `''` are falsy. -/
def pyFalsy (o : Option String) : Bool :=
  match o with
  | none => true
  | some s => s == ""

/-- Model of the Python idiom `x or default` on an optional string. -/
def pyOr (o : Option String) (dflt : String) : String :=
  match o with
  | none => dflt
  | some s => if s == "" then dflt else s

/-- Model of `str(o)` on an optional string: `None` renders as `"None"`. -/
def pyStr (o : Option String) : String :=
  match o with
  | none => "None"
  | some s => s

/-- An event dictionary as consumed by the LLM module, timeline simulator
and web scraper: `name` and `start` are always present on these paths
(the parser guarantees them and the code indexes them unconditionally);
the detail fields may be absent. -/
structure Event where
  name : String
  start : Dt
  location : Option String
  transport_mode : Option String
  arrival_time : Option String
  departure_time : Option String
deriving DecidableEq, Repr

/-! ## timeline_simulator.py -/

/-- State of `TimelineSimulator`: demo flag and the stored simulated date. -/
structure TimelineSimulator where
  demo_mode : Bool
  simulated_date : Dt
deriving DecidableEq, Repr

namespace TimelineSimulator

/-- Model of `TimelineSimulator.__init__(demo_mode)`: the stored date is
`datetime.now()` with the time of day zeroed (`now` is the wall clock). -/
def init (demo_mode : Bool) (now : Dt) : TimelineSimulator :=
  { demo_mode := demo_mode, simulated_date := now.trunc }

/-- Model of `set_demo_mode`: leaving demo mode resets to the truncated
wall clock. -/
def set_demo_mode (s : TimelineSimulator) (demo_mode : Bool) (now : Dt) :
    TimelineSimulator :=
  if demo_mode then
    { s with demo_mode := demo_mode }
  else
    { demo_mode := demo_mode, simulated_date := now.trunc }

/-- Model of `get_current_date`: the simulated date in demo mode, the
truncated wall clock otherwise. -/
def get_current_date (s : TimelineSimulator) (now : Dt) : Dt :=
  if s.demo_mode then s.simulated_date else now.trunc

/-- Model of `advance_days` (a no-op outside demo mode). -/
def advance_days (s : TimelineSimulator) (days : Int) : TimelineSimulator :=
  if s.demo_mode then
    { s with simulated_date := s.simulated_date.addDays days }
  else s

/-- Model of `set_date` (a no-op outside demo mode; truncates its input). -/
def set_date (s : TimelineSimulator) (date : Dt) : TimelineSimulator :=
  if s.demo_mode then
    { s with simulated_date := date.trunc }
  else s

/-- Model of `reset`: back to the truncated wall clock in any mode. -/
def reset (s : TimelineSimulator) (now : Dt) : TimelineSimulator :=
  { s with simulated_date := now.trunc }

/-- One mutating operation on the simulator, with the wall-clock reading
it observes (where it observes one) carried as data. -/
inductive Op where
  | setDemoMode (demo_mode : Bool) (now : Dt)
  | advanceDays (days : Int)
  | setDate (date : Dt)
  | reset (now : Dt)
deriving Repr

/-- Apply one operation to the simulator state. -/
def applyOp (s : TimelineSimulator) : Op → TimelineSimulator
  | .setDemoMode b now => s.set_demo_mode b now
  | .advanceDays n => s.advance_days n
  | .setDate d => s.set_date d
  | .reset now => s.reset now

/-- Model of `get_events_needing_alert`: keep exactly the events whose
day-truncated start equals `current_date + timedelta(days=days_before)`,
in input order (the Python loop-and-append is a filter). -/
def get_events_needing_alert (s : TimelineSimulator) (now : Dt)
    (events : List Event) (days_before : Int) : List Event :=
  let current_date := s.get_current_date now
  let target_date := current_date.addDays days_before
  events.filter (fun e => e.start.trunc == target_date)

end TimelineSimulator

/-! ## llm_module.py -/

namespace LLMModule

/-- Missingness test for `location` in `generate_questions`:
`not event.get('location') or event['location'] == ''` (the second
disjunct is only reached when the first is false, i.e. the value is a
non-empty string, so the whole test collapses to Python falsiness). -/
def locationMissing (e : Event) : Bool :=
  pyFalsy e.location

/-- Model of `LLMModule.generate_questions`: one prompt per missing
field, inserted in the fixed order location, arrival_time,
departure_time. -/
def generate_questions (e : Event) : List (String × String) :=
  (if locationMissing e then
    [("location", "Where will the event '" ++ e.name ++ "' take place?")]
  else []) ++
  (if pyFalsy e.arrival_time then
    [("arrival_time", "What time do you need to arrive for '" ++ e.name ++
      "'? (HH:MM format)")]
  else []) ++
  (if pyFalsy e.departure_time then
    [("departure_time", "What time do you plan to depart for '" ++ e.name ++
      "'? (HH:MM format)")]
  else [])

/-- Model of the regex `^([0-1]?[0-9]|2[0-3]):[0-5][0-9]$` (applied to an
already-stripped string, so the `$`-before-newline subtlety is moot). -/
def matchesTimePattern (s : String) : Bool :=
  match s.data with
  | [h, ':', m1, m2] =>
      h.isDigit && ('0' ≤ m1 && m1 ≤ '5') && m2.isDigit
  | [h1, h2, ':', m1, m2] =>
      (((h1 == '0' || h1 == '1') && h2.isDigit) ||
        (h1 == '2' && ('0' ≤ h2 && h2 ≤ '3'))) &&
      ('0' ≤ m1 && m1 ≤ '5') && m2.isDigit
  | _ => false

/-- Model of `LLMModule.parse_response`.  The `ValueError` raised on
invalid time input is the `Except.error` case. -/
def parse_response (response : String) (question_type : String) :
    Except String String :=
  let response := pyStrip response
  if question_type = "arrival_time" ∨ question_type = "departure_time" then
    if matchesTimePattern response then
      Except.ok response
    else if ¬ strContains response ':' ∧
        (strLen response = 3 ∨ strLen response = 4) then
      if strLen response = 3 then
        Except.ok (strTake response 1 ++ ":" ++ strDrop response 1)
      else
        Except.ok (strTake response 2 ++ ":" ++ strDrop response 2)
    else
      Except.error
        "Invalid time format. Please use HH:MM format (e.g., 09:30 or 14:30)"
  else
    Except.ok response

end LLMModule

/-! ## web_scraper.py -/

/-- One advisory record produced by the issue checker. -/
structure Issue where
  type : String
  severity : String
  message : String
  details : String
deriving DecidableEq, Repr

namespace WebScraper

/-- Outcomes of the `random.random()` draws made by one pass of the mock
issue checks, one field per draw site (each site draws at most once per
call, so naming the sites is equivalent to consuming a stream). -/
structure Rand where
  weatherDraw : ℚ
  trafficDraw : ℚ
  transitDraw : ℚ
  constructionDraw : ℚ
  nearbyDraw : ℚ
deriving Repr

/-- Model of `_check_weather_mock`; `now` is the `datetime.now()` reading
the call observes.  Note the check does not consult the location. -/
def check_weather_mock (r : Rand) (now : Dt) (e : Event) : List Issue :=
  let event_date := e.start
  let days_until := event_date.daysDiff now
  if days_until ≤ 7 then
    if r.weatherDraw > mkRat 7 10 then
      [{ type := "weather", severity := "warning",
         message := "🌧️ Rain expected " ++ fmtMD event_date ++ " - bring umbrella",
         details := "Weather forecast shows possible rain on " ++
           fmtYMD event_date ++
           ". Consider bringing an umbrella and waterproof shoes." }]
    else []
  else []

/-- Model of `_check_traffic_mock`. -/
def check_traffic_mock (r : Rand) (e : Event) : List Issue :=
  let event_date := e.start
  (if r.trafficDraw > mkRat 6 10 then
    [{ type := "traffic", severity := "info",
       message := "🚗 Heavy traffic near " ++ pyStr e.location ++
         " - leave 30min early",
       details := "Heavy traffic expected near " ++ pyStr e.location ++
         " during typical commute hours. Consider leaving 30 minutes earlier than planned." }]
  else []) ++
  (if event_date.weekday ≥ 5 then
    if r.transitDraw > mkRat 8 10 then
      [{ type := "transit", severity := "info",
         message := "🚌 Weekend transit schedule - check route ahead",
         details := "Weekend transit schedule may be different from weekdays. Please check your route in advance and allow extra time." }]
    else []
  else [])

/-- Model of `_check_location_issues_mock`. -/
def check_location_issues_mock (r : Rand) (e : Event) : List Issue :=
  (if r.constructionDraw > mkRat 3 4 then
    [{ type := "location", severity := "warning",
       message := "🚧 Construction near " ++ pyStr e.location ++ " - plan route",
       details := "There may be construction or road work near " ++
         pyStr e.location ++
         ". Plan your route accordingly and allow extra time." }]
  else []) ++
  (if r.nearbyDraw > mkRat 8 10 then
    [{ type := "location", severity := "info",
       message := "🏟️ Large event nearby - limited parking",
       details := "Large event scheduled near " ++ pyStr e.location ++
         " on the same day. Parking may be limited. Consider public transit or arrive early." }]
  else [])

/-- Model of `_check_for_issues_mock`: weather issues unconditionally,
traffic and location-specific issues only when `event.get('location')`
is truthy. -/
def check_for_issues_mock (r : Rand) (now : Dt) (e : Event) : List Issue :=
  check_weather_mock r now e ++
  (if ¬ pyFalsy e.location then check_traffic_mock r e else []) ++
  (if ¬ pyFalsy e.location then check_location_issues_mock r e else [])

/-- Model of `line.lstrip('0123456789.-) ')`. -/
def lstripMarkers (s : String) : String :=
  ⟨s.data.dropWhile (fun c =>
    c.isDigit || c == '.' || c == '-' || c == ')' || c == ' ')⟩

/-- Substring test used for the `'no significant concerns'` sentinel:
`sub` occurs in `s` iff splitting on it yields more than one piece. -/
def containsSub (s sub : String) : Bool :=
  (s.splitOn sub).length ≥ 2

/-- Model of the pure content of `_check_for_issues_api`: the Gemini
response (or a failure inside the inner `try`, which is caught, logged
and leaves `issues` empty) is the `resp` oracle; prompt construction has
no effect on the result and is elided. -/
def check_for_issues_api (resp : Except String String) (e : Event) :
    List Issue :=
  let location := e.location.getD ""
  if location = "" then []
  else
    match resp with
    | .error _ => []
    | .ok result_text =>
      let transport := e.transport_mode.getD "unknown"
      let arrival := e.arrival_time.getD ""
      let departure := e.departure_time.getD ""
      if pyStrip result_text ≠ "" ∧
          ¬ containsSub (strToLower result_text) "no significant concerns" then
        let lines := (((pyStrip result_text).splitOn "\n").map pyStrip).filter
          (fun l => l ≠ "")
        (lines.take 3).filterMap (fun line =>
          let line := lstripMarkers line
          if line ≠ "" ∧ strLen line > 10 then
            some { type := "ai_forecast", severity := "info",
                   message := strTake line 100,
                   details := "Plan: " ++ transport ++ " | Arrive: " ++
                     (if arrival == "" then "N/A" else arrival) ++
                     " | Depart: " ++
                     (if departure == "" then "N/A" else departure) }
          else none)
      else []

/-- Model of the cache key built in `check_for_issues`:
`f"{location}|{date_key}|{transport}|{arrival}|{departure}"` — the event
name is not part of it. -/
def cacheKey (e : Event) : String :=
  let location := e.location.getD ""
  let date_key := fmtYMD e.start
  let transport := strToLower (pyOr e.transport_mode "na")
  let arrival := pyOr e.arrival_time "na"
  let departure := pyOr e.departure_time "na"
  location ++ "|" ++ date_key ++ "|" ++ transport ++ "|" ++ arrival ++ "|" ++
    departure

/-- Mutable state of a `WebScraper`: the mode chosen at construction and
the in-memory cache.  The cache is an association list looked up on the
first (most recent) binding, observationally equal to the Python dict. -/
structure State where
  use_mock : Bool
  cache : List (String × List Issue)
deriving DecidableEq, Repr

/-- Model of `WebScraper.check_for_issues`.  `apiRun` is the oracle for
`asyncio.run(self._check_for_issues_api(event))` — an `Except.error`
models any exception escaping that call, which the source catches and
answers with the mock result.  The returned `Nat` counts how many times
this call computed issues (API attempt or mock evaluation) instead of
answering from the cache. -/
def check_for_issues (apiRun : Event → Except String (List Issue))
    (r : Rand) (now : Dt) (s : State) (e : Event) :
    List Issue × State × Nat :=
  let key := cacheKey e
  match s.cache.lookup key with
  | some issues => (issues, s, 0)
  | none =>
    if s.use_mock then
      let issues := check_for_issues_mock r now e
      (issues, { s with cache := (key, issues) :: s.cache }, 1)
    else
      match apiRun e with
      | .ok issues => (issues, { s with cache := (key, issues) :: s.cache }, 1)
      | .error _ =>
        let issues := check_for_issues_mock r now e
        (issues, { s with cache := (key, issues) :: s.cache }, 1)

end WebScraper

/-! ## calendar_parser.py -/

namespace CalendarParser

/-- A `dtstart`/`dtend` value as delivered by the `icalendar` library:
either a full `datetime` or a bare `date`. -/
inductive DtField where
  | dt (d : Dt)
  | dateOnly (day : Int)
deriving DecidableEq, Repr

/-- One component yielded by `cal.walk()`; `cname` is `component.name`
(only `"VEVENT"` components are turned into events). -/
structure RawComponent where
  cname : String
  summary : Option String
  dtstart : Option DtField
  dtend : Option DtField
  description : Option String
  location : Option String
deriving DecidableEq, Repr

/-- A parsed event record as built by `parse_calendar_file`. -/
structure PEvent where
  name : String
  start : Dt
  ev_end : Option Dt
  description : String
  location : String
deriving DecidableEq, Repr

/-- Conversion of the raw `start` value: a `date` becomes midnight via
`datetime.combine(date, time())`; a missing `dtstart` makes
`datetime.combine(None, time())` raise `TypeError`, which the enclosing
`try` converts into the parse failure. -/
def convStart : Option DtField → Except String Dt
  | none => .error "combine() argument 1 must be datetime.date, not None"
  | some (.dt d) => .ok d
  | some (.dateOnly day) => .ok ⟨day, 0, 0, 0, 0⟩

/-- Conversion of the raw `end` value (`None` is kept; a `date` becomes
midnight). -/
def convEnd : Option DtField → Option Dt
  | none => none
  | some (.dt d) => some d
  | some (.dateOnly day) => some ⟨day, 0, 0, 0, 0⟩

/-- Build one event dictionary from a `VEVENT` component. -/
def buildEvent (c : RawComponent) : Except String PEvent :=
  match convStart c.dtstart with
  | .error m => .error m
  | .ok st =>
    .ok { name := c.summary.getD "Untitled Event",
          start := st,
          ev_end := convEnd c.dtend,
          description := c.description.getD "",
          location := c.location.getD "" }

/-- Build all events in walk order; the first failure aborts the whole
parse (the `try` wraps the entire loop, so no partial list survives). -/
def buildEvents : List RawComponent → Except String (List PEvent)
  | [] => .ok []
  | c :: rest =>
    match buildEvent c with
    | .error m => .error m
    | .ok e =>
      match buildEvents rest with
      | .error m => .error m
      | .ok es => .ok (e :: es)

/-- The sort key comparison of `events.sort(key=lambda x: x['start'] if
x['start'] else datetime.max)`: on this path every built event carries a
`datetime` start (a `datetime` is always truthy, so the `datetime.max`
fallback is dead code), and `datetime` ordering is the order of
`Dt.totalMicro`. -/
def evLe (a b : PEvent) : Prop :=
  a.start.totalMicro ≤ b.start.totalMicro

instance : DecidableRel evLe := fun _ _ =>
  inferInstanceAs (Decidable (_ ≤ _))

instance : IsTotal PEvent evLe :=
  ⟨fun _ _ => Int.le_total _ _⟩

instance : IsTrans PEvent evLe :=
  ⟨fun _ _ _ => Int.le_trans⟩

/-- Model of `parse_calendar_file`.  The `raw` oracle is the outcome of
`Calendar.from_ical(file_content)` followed by `cal.walk()`: either the
exception message the library raised, or the list of components.  Any
exception inside the `try` resurfaces as
`ValueError(f"Error parsing calendar file: {e}")`. -/
def parse_calendar_file (raw : Except String (List RawComponent)) :
    Except String (List PEvent) :=
  match raw with
  | .error msg => .error ("Error parsing calendar file: " ++ msg)
  | .ok comps =>
    match buildEvents (comps.filter (fun c => c.cname == "VEVENT")) with
    | .error msg => .error ("Error parsing calendar file: " ++ msg)
    | .ok events => .ok (events.insertionSort evLe)

end CalendarParser

/-! ## Theorems -/

theorem Dt.trunc_isTrunc (d : Dt) : d.trunc.isTrunc :=
  ⟨rfl, rfl, rfl, rfl⟩

theorem TimelineSimulator.applyOp_preserves_isTrunc
    (s : TimelineSimulator) (op : TimelineSimulator.Op)
    (h : s.simulated_date.isTrunc) :
    (s.applyOp op).simulated_date.isTrunc := by
  obtain ⟨h1, h2, h3, h4⟩ := h
  cases op with
  | setDemoMode b now =>
    simp only [applyOp, set_demo_mode]
    split
    · exact ⟨h1, h2, h3, h4⟩
    · exact Dt.trunc_isTrunc now
  | advanceDays n =>
    simp only [applyOp, advance_days]
    split
    · exact ⟨h1, h2, h3, h4⟩
    · exact ⟨h1, h2, h3, h4⟩
  | setDate d =>
    simp only [applyOp, set_date]
    split
    · exact Dt.trunc_isTrunc d
    · exact ⟨h1, h2, h3, h4⟩
  | reset now =>
    exact Dt.trunc_isTrunc now

theorem TimelineSimulator.foldl_preserves_isTrunc
    (ops : List TimelineSimulator.Op) (s : TimelineSimulator)
    (h : s.simulated_date.isTrunc) :
    ((ops.foldl TimelineSimulator.applyOp s).simulated_date).isTrunc := by
  induction ops generalizing s with
  | nil => exact h
  | cons op rest ih =>
    exact ih (s.applyOp op) (s.applyOp_preserves_isTrunc op h)

theorem TimelineSimulator.get_current_date_isTrunc
    (s : TimelineSimulator) (now : Dt) (h : s.simulated_date.isTrunc) :
    (s.get_current_date now).isTrunc := by
  simp only [get_current_date]
  split
  · exact h
  · exact Dt.trunc_isTrunc now

/-- C9: after any sequence of construction, `set_demo_mode`,
`advance_days`, `set_date` and `reset` operations (each observing an
arbitrary wall clock), `get_current_date` returns a datetime whose hour,
minute, second and microsecond are all zero. -/
theorem simulated_clock_time_of_day_always_zero
    (demo : Bool) (now0 : Dt) (ops : List TimelineSimulator.Op) (now : Dt) :
    ((ops.foldl TimelineSimulator.applyOp
        (TimelineSimulator.init demo now0)).get_current_date now).hour = 0 ∧
    ((ops.foldl TimelineSimulator.applyOp
        (TimelineSimulator.init demo now0)).get_current_date now).minute = 0 ∧
    ((ops.foldl TimelineSimulator.applyOp
        (TimelineSimulator.init demo now0)).get_current_date now).second = 0 ∧
    ((ops.foldl TimelineSimulator.applyOp
        (TimelineSimulator.init demo now0)).get_current_date now).micro = 0 :=
  TimelineSimulator.get_current_date_isTrunc _ now
    (TimelineSimulator.foldl_preserves_isTrunc ops _ (Dt.trunc_isTrunc now0))

/-- C2: with the simulated date stored in day-truncated form (the
invariant established for every reachable state), an event is returned
by `get_events_needing_alert events D` iff its day-truncated start
equals the current date plus `D` days — an exact day-level match, so an
event on the target day with any nonzero time of day is returned, and an
event whose day is off by any amount (e.g. 6 or 8 days out when `D = 7`)
is not. -/
theorem get_events_needing_alert_exact_match
    (s : TimelineSimulator) (now : Dt) (events : List Event) (D : Int)
    (e : Event) (hinv : s.simulated_date.isTrunc) :
    (e ∈ s.get_events_needing_alert now events D ↔
      e ∈ events ∧ e.start.trunc = (s.get_current_date now).addDays D) ∧
    (e ∈ events → e.start.day = (s.get_current_date now).day + D →
      e ∈ s.get_events_needing_alert now events D) ∧
    (e.start.day ≠ (s.get_current_date now).day + D →
      e ∉ s.get_events_needing_alert now events D) := by
  have hc : (s.get_current_date now).isTrunc :=
    s.get_current_date_isTrunc now hinv
  obtain ⟨h1, h2, h3, h4⟩ := hc
  have hmem : e ∈ s.get_events_needing_alert now events D ↔
      e ∈ events ∧ e.start.trunc = (s.get_current_date now).addDays D := by
    simp [TimelineSimulator.get_events_needing_alert, List.mem_filter,
      beq_iff_eq]
  refine ⟨hmem, ?_, ?_⟩
  · intro he hday
    refine hmem.mpr ⟨he, ?_⟩
    simp [Dt.trunc, Dt.addDays, hday, h1, h2, h3, h4]
  · intro hday hcontra
    obtain ⟨-, htr⟩ := hmem.mp hcontra
    have : e.start.day = (s.get_current_date now).day + D := by
      have := congrArg Dt.day htr
      simpa [Dt.trunc, Dt.addDays] using this
    exact hday this

/-- Witness for C2 at a concrete reachable state: clock at day 0 (demo
mode), one event on day 7 at 09:30; with `D = 7` the event is returned,
and its day being 7 ≠ 0 + 6 means it is not returned with `D = 6`. -/
theorem get_events_needing_alert_exact_match_witness :
    (⟨"Kickoff", ⟨7, 9, 30, 0, 0⟩, none, none, none, none⟩ ∈
      TimelineSimulator.get_events_needing_alert
        ⟨true, ⟨0, 0, 0, 0, 0⟩⟩ ⟨0, 0, 0, 0, 0⟩
        [⟨"Kickoff", ⟨7, 9, 30, 0, 0⟩, none, none, none, none⟩] 7) ∧
    (⟨"Kickoff", ⟨7, 9, 30, 0, 0⟩, none, none, none, none⟩ ∉
      TimelineSimulator.get_events_needing_alert
        ⟨true, ⟨0, 0, 0, 0, 0⟩⟩ ⟨0, 0, 0, 0, 0⟩
        [⟨"Kickoff", ⟨7, 9, 30, 0, 0⟩, none, none, none, none⟩] 6) :=
  ⟨(get_events_needing_alert_exact_match ⟨true, ⟨0, 0, 0, 0, 0⟩⟩
      ⟨0, 0, 0, 0, 0⟩ _ 7 _ (by decide)).2.1 (by decide) (by decide),
   (get_events_needing_alert_exact_match ⟨true, ⟨0, 0, 0, 0, 0⟩⟩
      ⟨0, 0, 0, 0, 0⟩ _ 6 _ (by decide)).2.2 (by decide)⟩

/-- C4: an event with no `location`, `arrival_time` or `departure_time`
fields gets exactly the three questions `location`, `arrival_time`,
`departure_time` in that order; an event in which all three are present
and truthy (location a non-empty string) gets an empty mapping. -/
theorem generate_questions_missing_fields (e : Event) :
    (e.location = none → e.arrival_time = none → e.departure_time = none →
      (LLMModule.generate_questions e).map Prod.fst =
        ["location", "arrival_time", "departure_time"]) ∧
    (pyFalsy e.location = false → pyFalsy e.arrival_time = false →
      pyFalsy e.departure_time = false →
      LLMModule.generate_questions e = []) := by
  constructor
  · intro hl ha hd
    simp [LLMModule.generate_questions, LLMModule.locationMissing, hl, ha, hd,
      pyFalsy]
  · intro hl ha hd
    simp [LLMModule.generate_questions, LLMModule.locationMissing, hl, ha, hd]

/-- Witness for C4: a bare event (name and start only) gets the three
questions; a fully detailed event gets none. -/
theorem generate_questions_missing_fields_witness :
    (LLMModule.generate_questions
        ⟨"X", ⟨0, 0, 0, 0, 0⟩, none, none, none, none⟩).map Prod.fst =
      ["location", "arrival_time", "departure_time"] ∧
    LLMModule.generate_questions
        ⟨"X", ⟨0, 0, 0, 0, 0⟩, some "Cafe", none, some "09:30",
          some "08:00"⟩ = [] :=
  ⟨(generate_questions_missing_fields
      ⟨"X", ⟨0, 0, 0, 0, 0⟩, none, none, none, none⟩).1 rfl rfl rfl,
   (generate_questions_missing_fields
      ⟨"X", ⟨0, 0, 0, 0, 0⟩, some "Cafe", none, some "09:30",
        some "08:00"⟩).2 (by decide) (by decide) (by decide)⟩

/-- C7: the time repair inserts a colon before the last two characters of
a colon-free length-3 or length-4 input without zero-padding
(`"930" ↦ "9:30"`, `"1430" ↦ "14:30"`, `"9:30"` already matches and is
returned unchanged), and every non-time field passes through unchanged
except for stripping surrounding whitespace. -/
theorem parse_response_repair_and_passthrough :
    LLMModule.parse_response "930" "arrival_time" = Except.ok "9:30" ∧
    LLMModule.parse_response "1430" "departure_time" = Except.ok "14:30" ∧
    LLMModule.parse_response "9:30" "arrival_time" = Except.ok "9:30" ∧
    ∀ (s q : String), q ≠ "arrival_time" → q ≠ "departure_time" →
      LLMModule.parse_response s q = Except.ok (pyStrip s) := by
  refine ⟨by decide, by decide, by decide, ?_⟩
  intro s q h1 h2
  simp [LLMModule.parse_response, h1, h2]

/-- Witness for C7 at a concrete non-time field: a `location` answer is
returned with only its surrounding whitespace stripped. -/
theorem parse_response_repair_and_passthrough_witness :
    LLMModule.parse_response " Cafe Noir  " "location" =
      Except.ok (pyStrip " Cafe Noir  ") ∧
    LLMModule.parse_response "930" "arrival_time" = Except.ok "9:30" :=
  ⟨parse_response_repair_and_passthrough.2.2.2 " Cafe Noir  " "location"
      (by decide) (by decide),
   parse_response_repair_and_passthrough.1⟩

/-- C3 (code bug): `parse_response("abc", "arrival_time")` does not raise
at all — `"abc"` contains no colon and has length 3, so the repair path
fires on non-digit input and the call returns `"a:bc"` without any
re-validation against the HH:MM pattern. -/
theorem parse_response_abc_not_rejected :
    LLMModule.parse_response "abc" "arrival_time" = Except.ok "a:bc" ∧
    LLMModule.matchesTimePattern "a:bc" = false := by
  exact ⟨by decide, by decide⟩

/-- C10 counterexample: for an event whose `transport_mode` is absent
(falsy) but whose other details are complete, `generate_questions`
returns no `transport_mode` prompt, so the claimed "prompt present iff
field falsy" equivalence fails at this event. -/
theorem generate_questions_transport_mode_counterexample :
    pyFalsy (Event.mk "X" ⟨0, 0, 0, 0, 0⟩ (some "Home") none
        (some "09:00") (some "10:00")).transport_mode = true ∧
    ((LLMModule.generate_questions
        (Event.mk "X" ⟨0, 0, 0, 0, 0⟩ (some "Home") none
          (some "09:00") (some "10:00"))).map Prod.fst).contains
      "transport_mode" = false := by
  decide

/-- C10 amended: `generate_questions` never returns a `transport_mode`
prompt, whatever the event's `transport_mode` field holds — only
`location`, `arrival_time` and `departure_time` are ever asked, so the
caller's closed-choice transport selection is not reachable through the
generated questions. -/
theorem generate_questions_never_asks_transport_mode (e : Event) :
    ((LLMModule.generate_questions e).map Prod.fst).contains
      "transport_mode" = false := by
  simp only [LLMModule.generate_questions, LLMModule.locationMissing]
  split_ifs <;> simp

theorem WebScraper.cacheKey_ignores_name (e1 e2 : Event)
    (hloc : e2.location = e1.location)
    (hday : e2.start.day = e1.start.day)
    (htr : e2.transport_mode = e1.transport_mode)
    (har : e2.arrival_time = e1.arrival_time)
    (hdep : e2.departure_time = e1.departure_time) :
    WebScraper.cacheKey e2 = WebScraper.cacheKey e1 := by
  simp [WebScraper.cacheKey, fmtYMD, hloc, hday, htr, har, hdep]

theorem WebScraper.check_for_issues_hit
    (apiRun : Event → Except String (List Issue)) (r : WebScraper.Rand)
    (now : Dt) (s : WebScraper.State) (e : Event) (v : List Issue)
    (h : s.cache.lookup (WebScraper.cacheKey e) = some v) :
    WebScraper.check_for_issues apiRun r now s e = (v, s, 0) := by
  unfold WebScraper.check_for_issues
  simp [h]

theorem WebScraper.lookup_after_check
    (apiRun : Event → Except String (List Issue)) (r : WebScraper.Rand)
    (now : Dt) (s : WebScraper.State) (e : Event) :
    ((WebScraper.check_for_issues apiRun r now s e).2.1).cache.lookup
        (WebScraper.cacheKey e) =
      some (WebScraper.check_for_issues apiRun r now s e).1 := by
  unfold WebScraper.check_for_issues
  cases h : s.cache.lookup (WebScraper.cacheKey e) with
  | some v => simp [h]
  | none =>
    by_cases hm : s.use_mock
    · simp [h, hm, List.lookup]
    · cases ha : apiRun e <;> simp [h, hm, ha, List.lookup]

/-- C1: a second `check_for_issues` call whose event agrees with the
first on location, start day, transport mode, arrival time and departure
time (the composite cache key — the event name is not part of it)
returns the exact list computed by the first call, leaves the scraper
state untouched, and performs zero recomputations or external calls
(its compute count is 0), whatever randomness or API oracle the second
call would have used. -/
theorem check_for_issues_idempotent_cached
    (api1 api2 : Event → Except String (List Issue))
    (r1 r2 : WebScraper.Rand) (now1 now2 : Dt)
    (s : WebScraper.State) (e1 e2 : Event)
    (hloc : e2.location = e1.location)
    (hday : e2.start.day = e1.start.day)
    (htr : e2.transport_mode = e1.transport_mode)
    (har : e2.arrival_time = e1.arrival_time)
    (hdep : e2.departure_time = e1.departure_time) :
    (WebScraper.check_for_issues api2 r2 now2
        (WebScraper.check_for_issues api1 r1 now1 s e1).2.1 e2).1 =
      (WebScraper.check_for_issues api1 r1 now1 s e1).1 ∧
    (WebScraper.check_for_issues api2 r2 now2
        (WebScraper.check_for_issues api1 r1 now1 s e1).2.1 e2).2.1 =
      (WebScraper.check_for_issues api1 r1 now1 s e1).2.1 ∧
    (WebScraper.check_for_issues api2 r2 now2
        (WebScraper.check_for_issues api1 r1 now1 s e1).2.1 e2).2.2 = 0 := by
  have hkey := WebScraper.cacheKey_ignores_name e1 e2 hloc hday htr har hdep
  have hl := WebScraper.lookup_after_check api1 r1 now1 s e1
  have hhit := WebScraper.check_for_issues_hit api2 r2 now2
    (WebScraper.check_for_issues api1 r1 now1 s e1).2.1 e2
    (WebScraper.check_for_issues api1 r1 now1 s e1).1
    (by rw [hkey]; exact hl)
  rw [hhit]
  exact ⟨rfl, rfl, rfl⟩

/-- Witness for C1: two events that differ only in their name (same
location, day, transport, arrival, departure) — the second call answers
from the cache entry created by the first, changes nothing, and performs
zero computations. -/
theorem check_for_issues_idempotent_cached_witness :
    (WebScraper.check_for_issues (fun _ => Except.ok []) ⟨0, 0, 0, 0, 0⟩
        ⟨0, 0, 0, 0, 0⟩
        (WebScraper.check_for_issues (fun _ => Except.ok []) ⟨1, 1, 1, 1, 1⟩
          ⟨0, 0, 0, 0, 0⟩ ⟨true, []⟩
          ⟨"Dinner", ⟨7, 19, 0, 0, 0⟩, some "Tel Aviv", some "car",
            some "18:30", some "22:00"⟩).2.1
        ⟨"Party", ⟨7, 19, 0, 0, 0⟩, some "Tel Aviv", some "car",
          some "18:30", some "22:00"⟩).1 =
      (WebScraper.check_for_issues (fun _ => Except.ok []) ⟨1, 1, 1, 1, 1⟩
        ⟨0, 0, 0, 0, 0⟩ ⟨true, []⟩
        ⟨"Dinner", ⟨7, 19, 0, 0, 0⟩, some "Tel Aviv", some "car",
          some "18:30", some "22:00"⟩).1 ∧
    (WebScraper.check_for_issues (fun _ => Except.ok []) ⟨0, 0, 0, 0, 0⟩
        ⟨0, 0, 0, 0, 0⟩
        (WebScraper.check_for_issues (fun _ => Except.ok []) ⟨1, 1, 1, 1, 1⟩
          ⟨0, 0, 0, 0, 0⟩ ⟨true, []⟩
          ⟨"Dinner", ⟨7, 19, 0, 0, 0⟩, some "Tel Aviv", some "car",
            some "18:30", some "22:00"⟩).2.1
        ⟨"Party", ⟨7, 19, 0, 0, 0⟩, some "Tel Aviv", some "car",
          some "18:30", some "22:00"⟩).2.2 = 0 := by
  have h := check_for_issues_idempotent_cached (fun _ => Except.ok [])
    (fun _ => Except.ok []) ⟨1, 1, 1, 1, 1⟩ ⟨0, 0, 0, 0, 0⟩
    ⟨0, 0, 0, 0, 0⟩ ⟨0, 0, 0, 0, 0⟩ ⟨true, []⟩
    ⟨"Dinner", ⟨7, 19, 0, 0, 0⟩, some "Tel Aviv", some "car",
      some "18:30", some "22:00"⟩
    ⟨"Party", ⟨7, 19, 0, 0, 0⟩, some "Tel Aviv", some "car",
      some "18:30", some "22:00"⟩
    rfl rfl rfl rfl rfl
  exact ⟨h.1, h.2.2⟩

theorem WebScraper.check_for_issues_api_error (err : String) (e : Event) :
    WebScraper.check_for_issues_api (Except.error err) e = [] := by
  unfold WebScraper.check_for_issues_api
  by_cases h : e.location.getD "" = "" <;> simp [h]

/-- C6 counterexample: a failure reaching the external service (the
Gemini call raising, `resp = .error`) is caught by the inner
`try/except` of `_check_for_issues_api`, which returns `[]`;
`check_for_issues` caches and returns that empty list — not the
heuristic result, which for this event (weather draw 1, due in 3 days)
is non-empty.  So the code does not recover from a service failure by
computing the heuristic result, refuting the claim at this input. -/
theorem check_for_issues_service_failure_counterexample :
    (WebScraper.check_for_issues
        (fun ev => Except.ok (WebScraper.check_for_issues_api
          (Except.error "network unreachable") ev))
        ⟨1, 1, 1, 1, 1⟩ ⟨0, 0, 0, 0, 0⟩ ⟨false, []⟩
        ⟨"Dinner", ⟨3, 19, 0, 0, 0⟩, some "Haifa", some "train",
          some "18:30", none⟩).1 = [] ∧
    (WebScraper.check_for_issues_mock ⟨1, 1, 1, 1, 1⟩ ⟨0, 0, 0, 0, 0⟩
        ⟨"Dinner", ⟨3, 19, 0, 0, 0⟩, some "Haifa", some "train",
          some "18:30", none⟩).isEmpty = false := by
  exact ⟨by decide, by decide⟩

/-- C6 amended: no failure ever propagates to the caller of
`check_for_issues` (the embedding's total return type), but the recovery
differs by where the failure occurs.  A failure reaching or parsing the
external service is caught inside `_check_for_issues_api`, which
completes normally with `[]`; `check_for_issues` caches and returns that
empty list, not the heuristic result.  Only an exception escaping the
`asyncio.run(...)` call itself reaches the outer handler, which computes
the heuristic (mock) result, caches it and returns it normally. -/
theorem check_for_issues_service_failure_behavior
    (r : WebScraper.Rand) (now : Dt) (s : WebScraper.State) (e : Event)
    (err : String)
    (hmode : s.use_mock = false)
    (hmiss : s.cache.lookup (WebScraper.cacheKey e) = none) :
    WebScraper.check_for_issues
        (fun ev => Except.ok (WebScraper.check_for_issues_api
          (Except.error err) ev)) r now s e =
      ([], { s with cache := (WebScraper.cacheKey e, []) :: s.cache }, 1) ∧
    (∀ apiRun : Event → Except String (List Issue),
      apiRun e = Except.error err →
      WebScraper.check_for_issues apiRun r now s e =
        (WebScraper.check_for_issues_mock r now e,
         { s with cache := (WebScraper.cacheKey e,
             WebScraper.check_for_issues_mock r now e) :: s.cache }, 1)) := by
  constructor
  · unfold WebScraper.check_for_issues
    simp [hmiss, hmode, WebScraper.check_for_issues_api_error]
  · intro apiRun hfail
    unfold WebScraper.check_for_issues
    simp [hmiss, hmode, hfail]

/-- Witness for C6 (amended): on a fresh API-mode scraper, a caught
service failure yields a cached empty list, and an exception escaping
`asyncio.run` yields exactly the heuristic result. -/
theorem check_for_issues_service_failure_behavior_witness :
    WebScraper.check_for_issues
        (fun ev => Except.ok (WebScraper.check_for_issues_api
          (Except.error "bad api key") ev))
        ⟨1, 1, 1, 1, 1⟩ ⟨0, 0, 0, 0, 0⟩ ⟨false, []⟩
        ⟨"Dinner", ⟨3, 19, 0, 0, 0⟩, some "Haifa", some "train",
          some "18:30", none⟩ =
      ([], ⟨false, [(WebScraper.cacheKey
          ⟨"Dinner", ⟨3, 19, 0, 0, 0⟩, some "Haifa", some "train",
            some "18:30", none⟩, [])]⟩, 1) ∧
    WebScraper.check_for_issues (fun _ => Except.error "event loop closed")
        ⟨1, 1, 1, 1, 1⟩ ⟨0, 0, 0, 0, 0⟩ ⟨false, []⟩
        ⟨"Dinner", ⟨3, 19, 0, 0, 0⟩, some "Haifa", some "train",
          some "18:30", none⟩ =
      (WebScraper.check_for_issues_mock ⟨1, 1, 1, 1, 1⟩ ⟨0, 0, 0, 0, 0⟩
        ⟨"Dinner", ⟨3, 19, 0, 0, 0⟩, some "Haifa", some "train",
          some "18:30", none⟩,
       ⟨false, [(WebScraper.cacheKey
           ⟨"Dinner", ⟨3, 19, 0, 0, 0⟩, some "Haifa", some "train",
             some "18:30", none⟩,
         WebScraper.check_for_issues_mock ⟨1, 1, 1, 1, 1⟩ ⟨0, 0, 0, 0, 0⟩
           ⟨"Dinner", ⟨3, 19, 0, 0, 0⟩, some "Haifa", some "train",
             some "18:30", none⟩)]⟩, 1) :=
  ⟨(check_for_issues_service_failure_behavior ⟨1, 1, 1, 1, 1⟩
      ⟨0, 0, 0, 0, 0⟩ ⟨false, []⟩
      ⟨"Dinner", ⟨3, 19, 0, 0, 0⟩, some "Haifa", some "train",
        some "18:30", none⟩ "bad api key" rfl rfl).1,
   (check_for_issues_service_failure_behavior ⟨1, 1, 1, 1, 1⟩
      ⟨0, 0, 0, 0, 0⟩ ⟨false, []⟩
      ⟨"Dinner", ⟨3, 19, 0, 0, 0⟩, some "Haifa", some "train",
        some "18:30", none⟩ "event loop closed" rfl rfl).2
      (fun _ => Except.error "event loop closed") rfl⟩

/-- C5 counterexample: in heuristic (mock) mode an event with no
location can still receive a non-empty issue list — the weather check
does not consult the location, so with a weather draw of 1 an event due
today yields a rain advisory even though no location is present. -/
theorem check_for_issues_no_location_counterexample :
    (WebScraper.check_for_issues (fun _ => Except.ok []) ⟨1, 0, 0, 0, 0⟩
        ⟨0, 0, 0, 0, 0⟩ ⟨true, []⟩
        ⟨"NoLoc", ⟨0, 0, 0, 0, 0⟩, none, none, none, none⟩).1.isEmpty =
      false := by
  decide

/-- C5 amended: for an event with no location (absent or empty string)
the external-service evaluation returns an empty list immediately, and
the heuristic evaluation skips the traffic and location-specific checks
— reducing to the location-independent weather check, whose result may
be non-empty. -/
theorem check_for_issues_no_location
    (resp : Except String String) (r : WebScraper.Rand) (now : Dt)
    (e : Event) (h : pyFalsy e.location = true) :
    WebScraper.check_for_issues_api resp e = [] ∧
    WebScraper.check_for_issues_mock r now e =
      WebScraper.check_weather_mock r now e := by
  constructor
  · unfold WebScraper.check_for_issues_api
    cases hl : e.location with
    | none => simp [hl]
    | some l =>
      have hempty : l = "" := by
        have := h
        simp [pyFalsy, hl] at this
        exact this
      simp [hl, hempty]
  · unfold WebScraper.check_for_issues_mock
    simp [h]

/-- Witness for C5 (amended) at a concrete location-less event. -/
theorem check_for_issues_no_location_witness :
    WebScraper.check_for_issues_api (Except.ok "Heavy rain expected all day")
        ⟨"NoLoc", ⟨0, 0, 0, 0, 0⟩, none, none, none, none⟩ = [] ∧
    WebScraper.check_for_issues_mock ⟨1, 0, 0, 0, 0⟩ ⟨0, 0, 0, 0, 0⟩
        ⟨"NoLoc", ⟨0, 0, 0, 0, 0⟩, none, none, none, none⟩ =
      WebScraper.check_weather_mock ⟨1, 0, 0, 0, 0⟩ ⟨0, 0, 0, 0, 0⟩
        ⟨"NoLoc", ⟨0, 0, 0, 0, 0⟩, none, none, none, none⟩ :=
  check_for_issues_no_location (Except.ok "Heavy rain expected all day")
    ⟨1, 0, 0, 0, 0⟩ ⟨0, 0, 0, 0, 0⟩
    ⟨"NoLoc", ⟨0, 0, 0, 0, 0⟩, none, none, none, none⟩ rfl

theorem CalendarParser.buildEvents_ok_dtstart :
    ∀ (l : List CalendarParser.RawComponent)
      (evs : List CalendarParser.PEvent),
      CalendarParser.buildEvents l = Except.ok evs →
      ∀ c ∈ l, c.dtstart ≠ none := by
  intro l
  induction l with
  | nil =>
    intro evs _ c hc
    cases hc
  | cons a rest ih =>
    intro evs h c hc
    rw [CalendarParser.buildEvents] at h
    rcases List.mem_cons.mp hc with rfl | hc
    · intro hnone
      simp [CalendarParser.buildEvent, hnone, CalendarParser.convStart] at h
    · cases he : CalendarParser.buildEvent a with
      | error m =>
        rw [he] at h
        simp at h
      | ok ev =>
        rw [he] at h
        cases hr : CalendarParser.buildEvents rest with
        | error m =>
          rw [hr] at h
          simp at h
        | ok evs2 =>
          exact ih evs2 hr c hc

/-- C8: `parse_calendar_file` either fails with a parse error that wraps
the underlying cause verbatim (a library failure resurfaces as
`Error parsing calendar file: <cause>`, and a `VEVENT` lacking a start —
which makes `datetime.combine` raise — does the same, so no partial
result is ever returned), or returns the extracted events sorted
ascending by start timestamp; a startless event never reaches the output
list, so all returned events carry a start and the sort's
`datetime.max` fallback is vacuous. -/
theorem parse_calendar_file_sorted_or_error
    (raw : Except String (List CalendarParser.RawComponent)) :
    (∀ msg, raw = Except.error msg →
      CalendarParser.parse_calendar_file raw =
        Except.error ("Error parsing calendar file: " ++ msg)) ∧
    (∀ evs, CalendarParser.parse_calendar_file raw = Except.ok evs →
      List.Pairwise CalendarParser.evLe evs) ∧
    (∀ comps, raw = Except.ok comps →
      (∃ c ∈ comps.filter (fun c => c.cname == "VEVENT"), c.dtstart = none) →
      ∃ m, CalendarParser.parse_calendar_file raw =
        Except.error ("Error parsing calendar file: " ++ m)) := by
  refine ⟨?_, ?_, ?_⟩
  · intro msg h
    rw [h]
    rfl
  · intro evs h
    cases raw with
    | error msg => simp [CalendarParser.parse_calendar_file] at h
    | ok comps =>
      rw [CalendarParser.parse_calendar_file] at h
      cases hb : CalendarParser.buildEvents
          (comps.filter (fun c => c.cname == "VEVENT")) with
      | error m =>
        rw [hb] at h
        simp at h
      | ok events =>
        rw [hb] at h
        simp only [Except.ok.injEq] at h
        subst h
        exact List.sorted_insertionSort CalendarParser.evLe events
  · intro comps hraw hex
    obtain ⟨c, hc, hnone⟩ := hex
    subst hraw
    cases hb : CalendarParser.buildEvents
        (comps.filter (fun c => c.cname == "VEVENT")) with
    | error m =>
      refine ⟨m, ?_⟩
      rw [CalendarParser.parse_calendar_file, hb]
    | ok events =>
      exact absurd hnone
        (CalendarParser.buildEvents_ok_dtstart _ events hb c hc)

/-- Witness for C8: a library failure surfaces wrapped; a two-event
calendar given out of order comes back sorted ascending by start; a
`VEVENT` without `dtstart` makes the whole parse fail. -/
theorem parse_calendar_file_sorted_or_error_witness :
    CalendarParser.parse_calendar_file (Except.error "bad ics") =
      Except.error ("Error parsing calendar file: " ++ "bad ics") ∧
    List.Pairwise CalendarParser.evLe
      [⟨"B", ⟨3, 10, 0, 0, 0⟩, none, "", ""⟩,
       ⟨"A", ⟨5, 9, 0, 0, 0⟩, none, "", ""⟩] ∧
    ∃ m, CalendarParser.parse_calendar_file
        (Except.ok [⟨"VEVENT", some "NoStart", none, none, none, none⟩]) =
      Except.error ("Error parsing calendar file: " ++ m) :=
  ⟨(parse_calendar_file_sorted_or_error (Except.error "bad ics")).1
      "bad ics" rfl,
   (parse_calendar_file_sorted_or_error
      (Except.ok
        [⟨"VEVENT", some "A", some (.dt ⟨5, 9, 0, 0, 0⟩), none, none, none⟩,
         ⟨"VEVENT", some "B", some (.dt ⟨3, 10, 0, 0, 0⟩), none, none,
           none⟩])).2.1
      [⟨"B", ⟨3, 10, 0, 0, 0⟩, none, "", ""⟩,
       ⟨"A", ⟨5, 9, 0, 0, 0⟩, none, "", ""⟩] (by decide),
   (parse_calendar_file_sorted_or_error
      (Except.ok [⟨"VEVENT", some "NoStart", none, none, none, none⟩])).2.2
      [⟨"VEVENT", some "NoStart", none, none, none, none⟩] rfl
      ⟨⟨"VEVENT", some "NoStart", none, none, none, none⟩, by decide, rfl⟩⟩
